import Mathlib

/-
Verification of the gesture classification and temporal confirmation core of
the Real-Time Sign-Language-to-Text Translator (hand_tracking_app.py).

Embedding conventions:
* Landmark coordinates are exact rationals (the Python floats are only ever
  compared against fixed decimal thresholds).
* A hand landmark set is modelled as a total function from the landmark index
  to a Landmark.  The source always receives a list of exactly 21 landmarks
  and accesses it only at the fixed literal indices 0..20, so a total function
  on the naturals carries the same information for every access the code makes.
* The source function get_distance returns sqrt of a sum of squares and every
  use compares it against a positive constant c.  Since sqrt is strictly
  monotone on nonnegative reals, sqrt d < c iff d < c^2, so the embedding
  works with the squared distance get_distance_sq and squares each threshold.
  The symmetry claim about get_distance is stated through Real.sqrt applied
  to get_distance_sq, which is exactly the source value.
* The source function get_angle is built from floating-point atan2 and is
  transcendental; recognize_sign therefore takes the angle function as an
  explicit parameter, and every theorem below is proved for all values of
  that parameter, in particular for the true atan2-based one.
-/

/-- One hand landmark: normalized x, y coordinates and relative depth z. -/
structure Landmark where
  x : ℚ
  y : ℚ
  z : ℚ
deriving DecidableEq

/-- The 21-point hand landmark set, indexed 0..20 by the anatomical
convention (0 wrist, 4 thumb tip, 8/12/16/20 fingertips, 6/10/14/18 PIP
joints, 3 thumb IP, 5 index MCP).  The source only reads the fixed literal
indices listed above. -/
def HandLandmarkSet : Type := ℕ → Landmark

/-- The symbolic sign labels the classifier can return
(SignLanguageRecognizer.recognize_sign returns one of these strings or None). -/
inductive Sign where
  | A | B | C | D | E | F | I | K | L | O | U | V | W | Y
  | HELLO | THANKS | PLEASE | YES | GOOD | HELP
deriving DecidableEq

/-- Embedding of SignLanguageRecognizer.get_finger_status (lines 21-41):
thumb is extended iff tip x is left of the IP joint x, each other finger is
extended iff tip y is above (numerically below) the PIP joint y.  The list is
ordered [thumb, index, middle, ring, pinky] with 1 for extended, 0 otherwise,
exactly as the Python list of ints. -/
def get_finger_status (lm : HandLandmarkSet) : List ℕ :=
  (if (lm 4).x < (lm 3).x then 1 else 0) ::
  (if (lm 8).y < (lm 6).y then 1 else 0) ::
  (if (lm 12).y < (lm 10).y then 1 else 0) ::
  (if (lm 16).y < (lm 14).y then 1 else 0) ::
  (if (lm 20).y < (lm 18).y then 1 else 0) :: []

/-- Square of SignLanguageRecognizer.get_distance (lines 43-45); the source
returns the square root of this value.  All comparisons in the classifier are
against positive constants, so the square determines every branch taken. -/
def get_distance_sq (p1 p2 : Landmark) : ℚ :=
  (p1.x - p2.x)^2 + (p1.y - p2.y)^2 + (p1.z - p2.z)^2

/-- Squared thumb-tip to index-tip distance (local thumb_index_dist, line 60). -/
def thumb_index_dist_sq (lm : HandLandmarkSet) : ℚ :=
  get_distance_sq (lm 4) (lm 8)

/-- Squared thumb-tip to middle-tip distance (local thumb_middle_dist, line 61). -/
def thumb_middle_dist_sq (lm : HandLandmarkSet) : ℚ :=
  get_distance_sq (lm 4) (lm 12)

/-- Squared index-tip to middle-tip distance (local index_middle_dist, line 62). -/
def index_middle_dist_sq (lm : HandLandmarkSet) : ℚ :=
  get_distance_sq (lm 8) (lm 12)

/-- Embedding of SignLanguageRecognizer.recognize_sign (lines 55-154): the
ordered if/elif rule chain, first match wins.  Distance comparisons are the
source comparisons with both sides squared.  The L rule (lines 103-106) is a
nested if in the source: when the outer finger and distance test holds but the
angle is outside (70, 110) control falls through to the O rule; flattening the
nest into one conjunction is equivalent because computing the angle has no
side effects.  The get_angle parameter stands for the atan2-based
SignLanguageRecognizer.get_angle (lines 47-53), in degrees.  The source also
computes a palm center (lines 65-66) that is never used afterwards; it is
omitted here. -/
def recognize_sign (get_angle : Landmark → Landmark → Landmark → ℚ)
    (lm : HandLandmarkSet) : Option Sign :=
  if get_finger_status lm = [1, 0, 0, 0, 0] ∧ (lm 4).y > (lm 8).y then some Sign.A
  else if get_finger_status lm = [0, 1, 1, 1, 1] then some Sign.B
  else if (get_finger_status lm).sum ≥ 3 ∧ thumb_index_dist_sq lm > (0.1 : ℚ)^2 ∧
      thumb_index_dist_sq lm < (0.25 : ℚ)^2 then some Sign.C
  else if get_finger_status lm = [1, 1, 0, 0, 0] ∧
      thumb_middle_dist_sq lm < (0.08 : ℚ)^2 then some Sign.D
  else if (get_finger_status lm).sum = 0 then some Sign.E
  else if get_finger_status lm = [1, 1, 1, 1, 1] ∧
      thumb_index_dist_sq lm < (0.08 : ℚ)^2 then some Sign.F
  else if get_finger_status lm = [0, 0, 0, 0, 1] then some Sign.I
  else if get_finger_status lm = [1, 1, 1, 0, 0] ∧
      index_middle_dist_sq lm > (0.08 : ℚ)^2 then some Sign.K
  else if get_finger_status lm = [1, 1, 0, 0, 0] ∧
      thumb_index_dist_sq lm > (0.15 : ℚ)^2 ∧
      70 < get_angle (lm 4) (lm 5) (lm 8) ∧
      get_angle (lm 4) (lm 5) (lm 8) < 110 then some Sign.L
  else if (get_finger_status lm).sum ≥ 3 ∧
      thumb_index_dist_sq lm < (0.08 : ℚ)^2 then some Sign.O
  else if get_finger_status lm = [0, 1, 1, 0, 0] ∧
      index_middle_dist_sq lm < (0.05 : ℚ)^2 then some Sign.U
  else if get_finger_status lm = [0, 1, 1, 0, 0] ∧
      index_middle_dist_sq lm > (0.08 : ℚ)^2 then some Sign.V
  else if get_finger_status lm = [0, 1, 1, 1, 0] then some Sign.W
  else if get_finger_status lm = [1, 0, 0, 0, 1] then some Sign.Y
  else if (get_finger_status lm).sum = 5 then some Sign.HELLO
  else if get_finger_status lm = [1, 1, 1, 1, 1] ∧ (lm 8).y < (lm 0).y then some Sign.THANKS
  else if get_finger_status lm = [1, 1, 1, 1, 1] then some Sign.PLEASE
  else if (get_finger_status lm).sum = 0 ∧ (lm 8).y < (lm 0).y then some Sign.YES
  else if get_finger_status lm = [1, 0, 0, 0, 0] ∧ (lm 4).y < (lm 8).y then some Sign.GOOD
  else if get_finger_status lm = [1, 1, 0, 0, 0] then some Sign.HELP
  else none

/-- Rule 3 predicate of the chain (the C rule, line 79): at least three
fingers extended and thumb-index distance strictly between 0.10 and 0.25
(stated on the squared distance). -/
def rule_C_pred (lm : HandLandmarkSet) : Prop :=
  (get_finger_status lm).sum ≥ 3 ∧ thumb_index_dist_sq lm > (0.1 : ℚ)^2 ∧
    thumb_index_dist_sq lm < (0.25 : ℚ)^2

/-- Rule 10 predicate of the chain (the O rule, line 109): at least three
fingers extended and thumb-index distance below 0.08 (stated on the squared
distance). -/
def rule_O_pred (lm : HandLandmarkSet) : Prop :=
  (get_finger_status lm).sum ≥ 3 ∧ thumb_index_dist_sq lm < (0.08 : ℚ)^2

/-- Mutable state of SignLanguageRecognizer relevant to is_sign_ready:
last_sign (initially None), last_sign_time (initially 0) and the cooldown
constant (1.5, line 18). -/
structure RecognizerState where
  last_sign : Option Sign
  last_sign_time : ℚ
  cooldown : ℚ
deriving DecidableEq

/-- State installed by SignLanguageRecognizer.__init__ (lines 15-19). -/
def recognizerInit : RecognizerState := ⟨none, 0, 1.5⟩

/-- Embedding of SignLanguageRecognizer.is_sign_ready (lines 156-169) as an
explicit state transformer: returns the boolean result together with the
updated state.  On a sign different from last_sign the tracking is re-pointed
at the new sign with hold start now and the frame does not confirm; on the
same sign it confirms iff now - last_sign_time has reached the cooldown, in
which case last_sign_time is reset to now (re-arming). -/
def is_sign_ready (st : RecognizerState) (sign : Option Sign) (now : ℚ) :
    Bool × RecognizerState :=
  if sign ≠ st.last_sign then
    (false, ⟨sign, now, st.cooldown⟩)
  else if now - st.last_sign_time ≥ st.cooldown then
    (true, ⟨st.last_sign, now, st.cooldown⟩)
  else
    (false, st)

/-- Run is_sign_ready over a list of (sign, timestamp) observations in order,
collecting the per-frame results and the final state. -/
def observe_seq (st : RecognizerState) : List (Option Sign × ℚ) → List Bool × RecognizerState
  | [] => ([], st)
  | (s, t) :: rest =>
      let r := is_sign_ready st s t
      let rr := observe_seq r.2 rest
      (r.1 :: rr.1, rr.2)

/-- Recognizer-state slice of one iteration of SignLanguageTranslator.update_frame
(lines 436-480) for a frame that contains a hand, given the classification
result of that frame.  When recognize_sign returned a sign the loop calls
is_sign_ready on it (line 470); when it returned None the loop only resets the
UI display (lines 472-475) and the recognizer state is left untouched, so no
tracking reset happens.  The boolean is whether a sign was committed this
frame. -/
def update_frame_step (st : RecognizerState) (sign : Option Sign) (now : ℚ) :
    Bool × RecognizerState :=
  match sign with
  | some s => is_sign_ready st (some s) now
  | none => (false, st)

/-- Textual representation appended to the transcript for each sign; the
source appends the classifier result string itself. -/
def signText : Sign → String
  | Sign.A => "A"
  | Sign.B => "B"
  | Sign.C => "C"
  | Sign.D => "D"
  | Sign.E => "E"
  | Sign.F => "F"
  | Sign.I => "I"
  | Sign.K => "K"
  | Sign.L => "L"
  | Sign.O => "O"
  | Sign.U => "U"
  | Sign.V => "V"
  | Sign.W => "W"
  | Sign.Y => "Y"
  | Sign.HELLO => "HELLO"
  | Sign.THANKS => "THANKS"
  | Sign.PLEASE => "PLEASE"
  | Sign.YES => "YES"
  | Sign.GOOD => "GOOD"
  | Sign.HELP => "HELP"

/-- Append to a collections.deque with maxlen cap: the new element is added
on the right and, if the capacity is exceeded, the oldest elements are
dropped from the left. -/
def dequePush (cap : ℕ) (xs : List Sign) (s : Sign) : List Sign :=
  (xs ++ [s]).drop ((xs ++ [s]).length - cap)

/-- Transcript state of SignLanguageTranslator: the text buffer current_text,
the counter total_signs and the bounded history deque sign_history
(maxlen 10, line 208). -/
structure TranslatorState where
  current_text : String
  total_signs : ℕ
  sign_history : List Sign
deriving DecidableEq

/-- Transcript fields installed by SignLanguageTranslator.__init__
(lines 198, 204, 208). -/
def translatorInit : TranslatorState := ⟨"", 0, []⟩

/-- Embedding of SignLanguageTranslator.add_sign (lines 513-530): append the
sign text to the buffer, push it on the capacity-10 history deque and bump
the sign counter (UI label updates and the derived word count display are
omitted). -/
def add_sign (st : TranslatorState) (s : Sign) : TranslatorState :=
  ⟨st.current_text ++ signText s, st.total_signs + 1, dequePush 10 st.sign_history s⟩

/-- Embedding of SignLanguageTranslator.add_space (lines 532-536): append one
space; counters and history untouched. -/
def add_space (st : TranslatorState) : TranslatorState :=
  ⟨st.current_text ++ " ", st.total_signs, st.sign_history⟩

/-- Embedding of SignLanguageTranslator.backspace (lines 538-543): drop the
last character when the buffer is nonempty, otherwise do nothing; counters
and history untouched. -/
def backspace (st : TranslatorState) : TranslatorState :=
  if st.current_text = "" then st
  else ⟨st.current_text.dropRight 1, st.total_signs, st.sign_history⟩

/-- Embedding of SignLanguageTranslator.clear_text (lines 545-554), the
branch where the user confirms the dialog: empty buffer, zero sign counter,
empty history. -/
def clear_text (_st : TranslatorState) : TranslatorState :=
  ⟨"", 0, []⟩

/-- Claim C10: the landmark distance is symmetric.  Stated on the source
value, the square root of get_distance_sq. -/
theorem get_distance_symm (p1 p2 : Landmark) :
    Real.sqrt ((get_distance_sq p1 p2 : ℚ) : ℝ) =
      Real.sqrt ((get_distance_sq p2 p1 : ℚ) : ℝ) := by
  have h : get_distance_sq p1 p2 = get_distance_sq p2 p1 := by
    unfold get_distance_sq; ring
  rw [h]

/-- Claim C1: from the initial hold state with cooldown 1.5, observing sign A
at times 0.0, 1.4, 1.5, 1.6, 3.0 returns false, false, true, false, true, and
each confirmation resets the hold start to the current time (1.5 after the
third call, 3.0 after the fifth). -/
theorem hold_confirmation_timing :
    (observe_seq recognizerInit
      [(some Sign.A, 0), (some Sign.A, 1.4), (some Sign.A, 1.5),
       (some Sign.A, 1.6), (some Sign.A, 3)]).1 = [false, false, true, false, true]
    ∧ (observe_seq recognizerInit
      [(some Sign.A, 0), (some Sign.A, 1.4), (some Sign.A, 1.5)]).2.last_sign_time = 1.5
    ∧ (observe_seq recognizerInit
      [(some Sign.A, 0), (some Sign.A, 1.4), (some Sign.A, 1.5),
       (some Sign.A, 1.6), (some Sign.A, 3)]).2.last_sign_time = 3 := by
  have e1 : is_sign_ready recognizerInit (some Sign.A) 0 =
      (false, ⟨some Sign.A, 0, 1.5⟩) := by
    norm_num [is_sign_ready, recognizerInit]
    exact fun h => h.symm
  have e2 : is_sign_ready ⟨some Sign.A, 0, 1.5⟩ (some Sign.A) 1.4 =
      (false, ⟨some Sign.A, 0, 1.5⟩) := by
    norm_num [is_sign_ready]
  have e3 : is_sign_ready ⟨some Sign.A, 0, 1.5⟩ (some Sign.A) 1.5 =
      (true, ⟨some Sign.A, 1.5, 1.5⟩) := by
    norm_num [is_sign_ready]
  have e4 : is_sign_ready ⟨some Sign.A, 1.5, 1.5⟩ (some Sign.A) 1.6 =
      (false, ⟨some Sign.A, 1.5, 1.5⟩) := by
    norm_num [is_sign_ready]
  have e5 : is_sign_ready ⟨some Sign.A, 1.5, 1.5⟩ (some Sign.A) 3 =
      (true, ⟨some Sign.A, 3, 1.5⟩) := by
    norm_num [is_sign_ready]
  refine ⟨?_, ?_, ?_⟩ <;> simp [observe_seq, e1, e2, e3, e4, e5]

/-- Claim C5: observing a sign different from the tracked one returns false
for that frame and re-points tracking at the new sign with hold start equal
to the current timestamp: after observe(A, 0.0) then observe(B, 0.1) the
result is false and the hold start for B is 0.1, not 0.0. -/
theorem hold_reset_on_change :
    is_sign_ready recognizerInit (some Sign.A) 0 = (false, ⟨some Sign.A, 0, 1.5⟩)
    ∧ is_sign_ready ⟨some Sign.A, 0, 1.5⟩ (some Sign.B) 0.1 =
        (false, ⟨some Sign.B, 0.1, 1.5⟩) := by
  norm_num [is_sign_ready, recognizerInit]
  exact ⟨fun h => h.symm, by decide⟩

/-- Claim C7: from the empty transcript, add_sign A, add_sign B, add_space,
add_sign C leaves the buffer "AB C"; a following backspace leaves "AB "; a
following clear_text leaves the buffer empty, the sign counter 0 and the
history empty. -/
theorem transcript_round_trip :
    (add_sign (add_space (add_sign (add_sign translatorInit Sign.A) Sign.B)) Sign.C).current_text
      = "AB C"
    ∧ (backspace (add_sign (add_space (add_sign (add_sign translatorInit Sign.A) Sign.B)) Sign.C)).current_text
      = "AB "
    ∧ clear_text (backspace (add_sign (add_space (add_sign (add_sign translatorInit Sign.A) Sign.B)) Sign.C))
      = ⟨"", 0, []⟩ := by
  decide

/-- A finger-status list with sum zero is the all-zero list: each entry of
get_finger_status is 0 or 1. -/
theorem get_finger_status_sum_zero (lm : HandLandmarkSet)
    (h : (get_finger_status lm).sum = 0) : get_finger_status lm = [0, 0, 0, 0, 0] := by
  unfold get_finger_status at h ⊢
  split_ifs at h ⊢ <;> simp_all

/-- Claim C3: any hand landmark set whose derived finger state has zero
extended fingers classifies as E (rule 5); no earlier rule can match a
zero-finger state and the later zero-finger YES rule is shadowed. -/
theorem zero_fingers_classify_E (ga : Landmark → Landmark → Landmark → ℚ)
    (lm : HandLandmarkSet) (h : (get_finger_status lm).sum = 0) :
    recognize_sign ga lm = some Sign.E := by
  have hf := get_finger_status_sum_zero lm h
  unfold recognize_sign
  rw [hf]
  norm_num

/-- Stand-in for the atan2-based angle function, used to instantiate
universally quantified theorems at a concrete input. -/
def angle_stub : Landmark → Landmark → Landmark → ℚ := fun _ _ _ => 0

/-- Closed fist fixture: every landmark at the origin, so no finger is
extended. -/
def lm_fist : HandLandmarkSet := fun _ => ⟨0, 0, 0⟩

/-- Witness for claim C3 at the closed-fist fixture. -/
theorem zero_fingers_classify_E_witness :
    recognize_sign angle_stub lm_fist = some Sign.E :=
  zero_fingers_classify_E angle_stub lm_fist (by simp [get_finger_status, lm_fist])

/-- Claim C9: with finger state [0,1,1,0,0] and the squared index-middle
distance in the closed gap between the squared U threshold (0.05) and the
squared V threshold (0.08), no rule of the chain fires and the classifier
returns no match. -/
theorem u_v_gap_no_match (ga : Landmark → Landmark → Landmark → ℚ)
    (lm : HandLandmarkSet) (hf : get_finger_status lm = [0, 1, 1, 0, 0])
    (h1 : (0.05 : ℚ)^2 ≤ index_middle_dist_sq lm)
    (h2 : index_middle_dist_sq lm ≤ (0.08 : ℚ)^2) :
    recognize_sign ga lm = none := by
  have hU : ¬ (index_middle_dist_sq lm < (0.05 : ℚ)^2) := not_lt.mpr h1
  have hV : ¬ (index_middle_dist_sq lm > (0.08 : ℚ)^2) := not_lt.mpr h2
  unfold recognize_sign
  rw [hf]
  simp [hU, hV]

/-- Fixture with index and middle fingers extended and squared index-middle
tip distance 1/256, inside the closed gap [1/400, 4/625] between the squared
U and V thresholds. -/
def lm_gap : HandLandmarkSet := fun i =>
  if i = 6 then ⟨0, 1, 0⟩
  else if i = 10 then ⟨1/16, 1, 0⟩
  else if i = 12 then ⟨1/16, 0, 0⟩
  else ⟨0, 0, 0⟩

/-- Witness for claim C9 at the gap fixture. -/
theorem u_v_gap_no_match_witness :
    recognize_sign angle_stub lm_gap = none :=
  u_v_gap_no_match angle_stub lm_gap
    (by norm_num [get_finger_status, lm_gap])
    (by norm_num [index_middle_dist_sq, get_distance_sq, lm_gap])
    (by norm_num [index_middle_dist_sq, get_distance_sq, lm_gap])

/-- An if-then-else over sign options differs from a value that both of its
branches differ from. -/
theorem ite_ne_of {c : Prop} [Decidable c] {a b v : Option Sign}
    (ha : a ≠ v) (hb : b ≠ v) : (if c then a else b) ≠ v := by
  by_cases h : c
  · simpa [h] using ha
  · simpa [h] using hb

/-- Claim C2: the classifier never returns THANKS and never returns PLEASE:
their rules require all five fingers extended, but the unconditional HELLO
rule (sum of fingers equal to 5) is evaluated first, so rules 16 and 17 are
unreachable dead rules. -/
theorem thanks_please_unreachable (ga : Landmark → Landmark → Landmark → ℚ)
    (lm : HandLandmarkSet) :
    recognize_sign ga lm ≠ some Sign.THANKS ∧ recognize_sign ga lm ≠ some Sign.PLEASE := by
  by_cases hfin : get_finger_status lm = [1, 1, 1, 1, 1]
  · unfold recognize_sign
    rw [hfin, if_pos (show ([1, 1, 1, 1, 1] : List ℕ).sum = 5 by norm_num)]
    constructor <;>
      (repeat first
        | apply ite_ne_of
        | decide)
  · have h16 : ¬ (get_finger_status lm = [1, 1, 1, 1, 1] ∧ (lm 8).y < (lm 0).y) :=
      fun hc => hfin hc.1
    unfold recognize_sign
    rw [if_neg h16, if_neg hfin]
    constructor <;>
      (repeat first
        | apply ite_ne_of
        | decide)

/-- Counterexample to claim C4 as stated: no hand landmark set can satisfy
both the rule 3 (C) predicate and the rule 10 (O) predicate, because the
thumb-index distance bands, strictly above 0.10 versus strictly below 0.08,
are disjoint. -/
theorem c_o_joint_fixture_impossible :
    ¬ ∃ lm : HandLandmarkSet, rule_C_pred lm ∧ rule_O_pred lm := by
  rintro ⟨lm, ⟨-, hgt, -⟩, -, hlt⟩
  have h := lt_trans hgt hlt
  norm_num at h

/-- Claim C4 amended: the joint fixture demanded by the claim cannot exist
(the rule 3 and rule 10 distance bands are disjoint), and the rule-order part
that remains stands: any hand landmark set satisfying the rule 3 predicate on
which neither rule 1 (A) nor rule 2 (B) fires classifies as C, because rule 3
is evaluated before rule 10. -/
theorem rule_C_wins_when_matched :
    (¬ ∃ lm : HandLandmarkSet, rule_C_pred lm ∧ rule_O_pred lm) ∧
    ∀ (ga : Landmark → Landmark → Landmark → ℚ) (lm : HandLandmarkSet),
      rule_C_pred lm →
      ¬ (get_finger_status lm = [1, 0, 0, 0, 0] ∧ (lm 4).y > (lm 8).y) →
      get_finger_status lm ≠ [0, 1, 1, 1, 1] →
      recognize_sign ga lm = some Sign.C := by
  constructor
  · rintro ⟨lm, ⟨-, hgt, -⟩, -, hlt⟩
    have h := lt_trans hgt hlt
    norm_num at h
  · intro ga lm hC hA hB
    have hC2 : (get_finger_status lm).sum ≥ 3 ∧ thumb_index_dist_sq lm > (0.1 : ℚ)^2 ∧
        thumb_index_dist_sq lm < (0.25 : ℚ)^2 := hC
    unfold recognize_sign
    rw [if_neg hA, if_neg hB, if_pos hC2]

/-- Fixture with thumb, index and middle extended and squared thumb-index
tip distance 1/64, inside the squared rule 3 band (1/100, 1/16). -/
def lm_c_rule : HandLandmarkSet := fun i =>
  if i = 3 then ⟨1, 0, 0⟩
  else if i = 6 then ⟨0, 1, 0⟩
  else if i = 8 then ⟨1/8, 0, 0⟩
  else if i = 10 then ⟨0, 1, 0⟩
  else ⟨0, 0, 0⟩

/-- Witness for the amended claim C4 at a fixture matching rule 3. -/
theorem rule_C_wins_when_matched_witness :
    recognize_sign angle_stub lm_c_rule = some Sign.C :=
  rule_C_wins_when_matched.2 angle_stub lm_c_rule
    (by refine ⟨?_, ?_, ?_⟩ <;>
      norm_num [rule_C_pred, get_finger_status, thumb_index_dist_sq, get_distance_sq, lm_c_rule])
    (by norm_num [get_finger_status, lm_c_rule])
    (by norm_num [get_finger_status, lm_c_rule])

/-- Counterexample to claim C6 as stated: after observing A at time 0 and a
no-match frame at time 0.1, the recognizer still tracks A (the tracked sign
is not reset to none), and when A reappears at time 3 the frame confirms
immediately instead of starting a fresh hold. -/
theorem no_match_frame_keeps_tracking :
    ((update_frame_step ((update_frame_step recognizerInit (some Sign.A) 0).2) none 0.1).2).last_sign
        = some Sign.A
    ∧ (update_frame_step ((update_frame_step ((update_frame_step recognizerInit
        (some Sign.A) 0).2) none 0.1).2) (some Sign.A) 3).1 = true := by
  have e1 : update_frame_step recognizerInit (some Sign.A) 0 =
      (false, ⟨some Sign.A, 0, 1.5⟩) := by
    show is_sign_ready recognizerInit (some Sign.A) 0 = _
    norm_num [is_sign_ready, recognizerInit]
    exact fun h => h.symm
  have e2 : update_frame_step ⟨some Sign.A, 0, 1.5⟩ none 0.1 =
      (false, ⟨some Sign.A, 0, 1.5⟩) := rfl
  have e3 : update_frame_step ⟨some Sign.A, 0, 1.5⟩ (some Sign.A) 3 =
      (true, ⟨some Sign.A, 3, 1.5⟩) := by
    show is_sign_ready ⟨some Sign.A, 0, 1.5⟩ (some Sign.A) 3 = _
    norm_num [is_sign_ready]
  simp [e1, e2, e3]

/-- Claim C6 amended: a no-match frame does not reach the hold state machine
at all: update_frame leaves the recognizer state unchanged on such a frame
(only the UI display is reset), so the previously tracked sign stays tracked,
and when it reappears after at least the cooldown since its recorded hold
start the frame confirms immediately instead of starting a fresh hold. -/
theorem no_match_frame_no_reset :
    (∀ (st : RecognizerState) (now : ℚ), update_frame_step st none now = (false, st)) ∧
    ∀ (st : RecognizerState) (s : Sign) (t : ℚ), st.last_sign = some s →
      t - st.last_sign_time ≥ st.cooldown → (update_frame_step st (some s) t).1 = true := by
  constructor
  · intro st now
    rfl
  · intro st s t hs hc
    show (is_sign_ready st (some s) t).1 = true
    simp [is_sign_ready, hs, hc]

/-- Witness for the amended claim C6: a state tracking A since time 0 sees a
no-match frame pass through unchanged, and observing A at time 3 confirms. -/
theorem no_match_frame_no_reset_witness :
    update_frame_step ⟨some Sign.A, 0, 1.5⟩ none 0.1 = (false, ⟨some Sign.A, 0, 1.5⟩)
    ∧ (update_frame_step ⟨some Sign.A, 0, 1.5⟩ (some Sign.A) 3).1 = true :=
  ⟨no_match_frame_no_reset.1 ⟨some Sign.A, 0, 1.5⟩ 0.1,
   no_match_frame_no_reset.2 ⟨some Sign.A, 0, 1.5⟩ Sign.A 3 rfl
     (show (3 : ℚ) - 0 ≥ 1.5 by norm_num)⟩

/-- Folding dequePush over a nonempty list keeps exactly the last cap
elements of the initial contents followed by the pushed elements. -/
theorem foldl_dequePush (cap : ℕ) : ∀ (l : List Sign) (a : Sign) (xs : List Sign),
    List.foldl (dequePush cap) xs (a :: l) =
      (xs ++ a :: l).drop ((xs ++ a :: l).length - cap)
  | [], a, xs => by simp [dequePush]
  | b :: l, a, xs => by
    have ih := foldl_dequePush cap l b (dequePush cap xs a)
    rw [List.foldl_cons, ih]
    have hsplit : dequePush cap xs a ++ b :: l =
        ((xs ++ [a]) ++ b :: l).drop ((xs ++ [a]).length - cap) := by
      rw [dequePush]
      conv_rhs => rw [List.drop_append_eq_append_drop]
      rw [Nat.sub_eq_zero_of_le (Nat.sub_le _ _), List.drop_zero]
    rw [hsplit, List.drop_drop,
      show xs ++ [a] ++ b :: l = xs ++ a :: b :: l by simp]
    congr 1
    simp only [List.length_drop, List.length_append, List.length_cons, List.length_nil]
    omega

/-- The history field after folding add_sign is the fold of dequePush over
the history field: add_sign touches the history only through dequePush. -/
theorem foldl_add_sign_history : ∀ (l : List Sign) (st : TranslatorState),
    (List.foldl add_sign st l).sign_history = List.foldl (dequePush 10) st.sign_history l
  | [], _ => rfl
  | s :: l, st => by
    rw [List.foldl_cons, List.foldl_cons, foldl_add_sign_history l (add_sign st s)]
    rfl

/-- Claim C8: the history ring never exceeds 10 entries, and from any
transcript state, appending 11 distinct signs leaves exactly the last 10 of
them in the history, the oldest having been evicted first. -/
theorem history_ring_eviction :
    (∀ (st : TranslatorState) (s : Sign), ((add_sign st s).sign_history).length ≤ 10) ∧
    ∀ (st : TranslatorState) (l : List Sign), l.length = 11 → l.Nodup →
      (List.foldl add_sign st l).sign_history = l.drop 1 := by
  constructor
  · intro st s
    show (dequePush 10 st.sign_history s).length ≤ 10
    rw [dequePush, List.length_drop]
    omega
  · intro st l hlen _hnd
    obtain ⟨a, l2, rfl⟩ : ∃ a l2, l = a :: l2 := by
      cases l with
      | nil => simp at hlen
      | cons a l2 => exact ⟨a, l2, rfl⟩
    rw [foldl_add_sign_history, foldl_dequePush]
    have hidx : (st.sign_history ++ a :: l2).length - 10 = st.sign_history.length + 1 := by
      simp only [List.length_append, List.length_cons] at *
      omega
    rw [hidx, List.drop_append_eq_append_drop]
    have h1 : st.sign_history.drop (st.sign_history.length + 1) = [] :=
      List.drop_eq_nil_of_le (by omega)
    have h2 : st.sign_history.length + 1 - st.sign_history.length = 1 := by omega
    rw [h1, h2, List.nil_append]

/-- Witness for claim C8: pushing 11 distinct signs onto the empty transcript
leaves exactly the last 10 in the history. -/
theorem history_ring_eviction_witness :
    (List.foldl add_sign translatorInit
      [Sign.A, Sign.B, Sign.C, Sign.D, Sign.E, Sign.F, Sign.I, Sign.K, Sign.L, Sign.O, Sign.U]).sign_history
      = [Sign.B, Sign.C, Sign.D, Sign.E, Sign.F, Sign.I, Sign.K, Sign.L, Sign.O, Sign.U] :=
  (history_ring_eviction.2 translatorInit
    [Sign.A, Sign.B, Sign.C, Sign.D, Sign.E, Sign.F, Sign.I, Sign.K, Sign.L, Sign.O, Sign.U]
    (by decide) (by decide)).trans (by decide)
